import Mathlib

/-!
Verification of the discordavatarproxy request pipeline (src/main.rs).

The whole program is a single stateless HTTP handler.  We embed it
shallowly: the two outbound HTTP calls (the Discord user lookup and the
avatar image fetch) are modelled as oracle values carried in a `World`
record, and each Rust function returning `anyhow::Result<T>` becomes a
Lean function returning `Option T` (`none` models the `Err` case that
bubbles up to `wrap_error` and yields the 500 response).  JSON
serialization by serde is modelled structurally by the `Json` type: the
serializer emits the fields of `ResponseUserFormat` in declaration
order, with `Option.none` rendered as JSON null.
-/

namespace DiscordAvatarProxy

/-- The upstream user record, field for field the Rust struct
`DiscordUserFormat` deserialized from the Discord response body. -/
structure DiscordUserFormat where
  accent_color : Option Int
  username : String
  discriminator : String
  id : String
  public_flags : Int
  bot : Bool
  banner : Option String
  avatar : Option String
  deriving Repr, DecidableEq

/-- Accumulate ASCII decimal digits; fails on any non-digit character.
Models the digit loop of the Rust `from_str_radix` for unsigned types. -/
def digitsToNat : List Char → Nat → Option Nat
  | [], acc => some acc
  | c :: cs, acc =>
    if c.isDigit then digitsToNat cs (acc * 10 + (c.toNat - 48)) else none

/-- The Rust unsigned parsers accept one optional leading plus sign. -/
def stripSign : List Char → List Char
  | '+' :: rest => rest
  | l => l

/-- Model of `str::parse` for a Rust unsigned integer type with upper
bound `bound` (exclusive): an optional leading plus sign followed by one
or more ASCII digits, whose value fits in the type.  Overflow, an empty
digit string, and any other character make the parse fail. -/
def rustParseUnsigned (bound : Nat) (s : String) : Option Nat :=
  let ds := stripSign s.data
  if ds = [] then none
  else
    match digitsToNat ds 0 with
    | none => none
    | some n => if n < bound then some n else none

/-- `discrim.parse::<u16>()` in `default_avatar_url`. -/
def parseU16 (s : String) : Option Nat := rustParseUnsigned (2 ^ 16) s

/-- `userid.parse::<u64>()` in `get_discord_data_for`. -/
def parseU64 (s : String) : Option Nat := rustParseUnsigned (2 ^ 64) s

/-- Rust `default_avatar_url`: parse the discriminator as a u16 and pick
one of the five default avatars by `d % 5`.  `none` models the
`anyhow::Result` error when the discriminator does not parse. -/
def default_avatar_url (discrim : String) : Option String :=
  (parseU16 discrim).map
    (fun d => "https://cdn.discordapp.com/embed/avatars/" ++ toString (d % 5) ++ ".png")

/-- Rust `get_avatar_url`: hash-based custom avatar URL when the record
has an avatar hash, otherwise the default-avatar fallback. -/
def get_avatar_url (json : DiscordUserFormat) : Option String :=
  match json.avatar with
  | none => default_avatar_url json.discriminator
  | some avatar_hash =>
    some ("https://cdn.discordapp.com/avatars/" ++ json.id ++ "/" ++ avatar_hash ++ ".png")

/-- Structural model of a serde JSON value, rich enough for the bodies
this program emits. -/
inductive Json where
  | str : String → Json
  | null : Json
  | obj : List (String × Json) → Json

/-- A response body: empty (the redirect), plain text (`make_err` and the
500 handler), a serialized JSON object, or the raw bytes relayed from
the avatar fetch. -/
inductive Body where
  | empty : Body
  | text : String → Body
  | json : Json → Body
  | bytes : List Nat → Body

/-- An HTTP response as built by `Response::builder()`: status, the
explicitly set headers in order, and the body. -/
structure HttpResponse where
  status : Nat
  headers : List (String × String)
  body : Body

/-- An inbound HTTP request.  The Rust handler receives the full
request; it only ever reads `req.uri().path()`. -/
structure HttpRequest where
  method : String
  path : String

/-- Rust `make_err`: a response with the given status, no explicit
headers, and the body `"{err} {text}"`.  (`Response::builder` cannot
fail for the statuses this program uses, so the model is total.) -/
def make_err (err : Nat) (text : String) : HttpResponse :=
  { status := err, headers := [], body := Body.text (toString err ++ " " ++ text) }

/-- Oracle for the outcome of the outbound Discord user lookup:
either a transport-level failure (connection, TLS, body read, non-UTF-8
body), or an HTTP response with its status and the result of
deserializing its body as a `DiscordUserFormat` (`none` when the body is
not valid JSON for that shape). -/
inductive Upstream where
  | netFailure : Upstream
  | response : Nat → Option DiscordUserFormat → Upstream

/-- Rust `get_user_data` as a function of the upstream oracle: it
propagates transport failures and body-deserialization failures as
errors, and NEVER inspects the HTTP status of the upstream response. -/
def get_user_data : Upstream → Option DiscordUserFormat
  | Upstream.netFailure => none
  | Upstream.response _status parsed => parsed

/-- Which outbound calls a request handling actually performed. -/
structure Trace where
  userLookupCalled : Bool
  avatarFetchCalled : Bool
  deriving Repr, DecidableEq

/-- Rust `get_discord_data_for`: parse the user id as a u64 (404 with
"Not found" when that fails, before any outbound call), then perform the
user lookup (502 with "Discord failed to respond" when it fails).  The
`Except` error carries the early public response, mirroring the nested
`Result<Result<_, Response>>`; the Bool records whether the outbound
lookup happened. -/
def get_discord_data_for (userid : String) (up : Upstream) :
    Except HttpResponse DiscordUserFormat × Bool :=
  match parseU64 userid with
  | none => (Except.error (make_err 404 "Not found"), false)
  | some _num =>
    match get_user_data up with
    | none => (Except.error (make_err 502 "Discord failed to respond"), true)
    | some user_data => (Except.ok user_data, true)

/-- The Rust struct `ResponseUserFormat` serialized into the JSON body
of a successful `.json` request. -/
structure ResponseUserFormat where
  username : String
  discriminator : String
  avatar : String
  banner : Option String

/-- Serde serialization of `ResponseUserFormat`, structurally: an object
with exactly the four fields in declaration order, `banner` rendered as
null when absent. -/
def responseJson (r : ResponseUserFormat) : Json :=
  Json.obj
    [("username", Json.str r.username),
     ("discriminator", Json.str r.discriminator),
     ("avatar", Json.str r.avatar),
     ("banner", match r.banner with
                | none => Json.null
                | some b => Json.str b)]

/-- Rust `respond_with_json`.  A `none` result models an `anyhow::Err`
propagating out of the handler (here: `get_avatar_url(&json)?` failing),
which `wrap_error` later turns into the 500 response.  The Bool records
whether the user lookup was performed. -/
def respond_with_json (userid : String) (up : Upstream) : Option HttpResponse × Bool :=
  match get_discord_data_for userid up with
  | (Except.error r, called) => (some r, called)
  | (Except.ok json, called) =>
    match get_avatar_url json with
    | none => (none, called)
    | some avatar_url =>
      (some { status := 200,
              headers := [("content-type", "application/json")],
              body := Body.json (responseJson
                { username := json.username,
                  discriminator := json.discriminator,
                  avatar := avatar_url,
                  banner := json.banner.map
                    (fun hash => "https://cdn.discordapp.com/banners/" ++ json.id ++ "/" ++ hash ++ ".png") }) },
       called)

/-- Oracle for the second outbound call, `arc.client.get(avatar_url)`:
the URL string may fail to parse as a `Uri` (the `?` on
`avatar_url.parse()` then propagates an internal error), the GET may
fail at the transport level, or it completes with some HTTP status,
content type and body bytes.  The hyper client returns `Ok` for every
completed HTTP exchange regardless of status. -/
inductive AvatarFetch where
  | uriInvalid : AvatarFetch
  | getFailure : AvatarFetch
  | getSuccess : Nat → String → List Nat → AvatarFetch

/-- The per-request world: what the two outbound calls would return. -/
structure World where
  upstream : Upstream
  avatarFetch : AvatarFetch

/-- Rust `respond_with_image`: user lookup, avatar URL resolution (502
"Discord failed to respond" when it fails), then the avatar GET; on GET
failure a 502 naming the URL, on success a 200 with content type
hardcoded to image/png and the upstream body relayed verbatim. -/
def respond_with_image (userid : String) (w : World) : Option HttpResponse × Trace :=
  match get_discord_data_for userid w.upstream with
  | (Except.error r, called) => (some r, { userLookupCalled := called, avatarFetchCalled := false })
  | (Except.ok json, called) =>
    match get_avatar_url json with
    | none => (some (make_err 502 "Discord failed to respond"),
               { userLookupCalled := called, avatarFetchCalled := false })
    | some avatar_url =>
      match w.avatarFetch with
      | AvatarFetch.uriInvalid =>
        (none, { userLookupCalled := called, avatarFetchCalled := false })
      | AvatarFetch.getFailure =>
        (some (make_err 502 ("Discord failed to supply avatar for url: " ++ avatar_url)),
         { userLookupCalled := called, avatarFetchCalled := true })
      | AvatarFetch.getSuccess _status _contentType bodyBytes =>
        (some { status := 200,
                headers := [("content-type", "image/png")],
                body := Body.bytes bodyBytes },
         { userLookupCalled := called, avatarFetchCalled := true })

/-- Model of Rust `str::strip_prefix` on character lists: `some` of the
remainder when the first list is a prefix of the second. -/
def stripPrefixL : List Char → List Char → Option (List Char)
  | [], s => some s
  | _ :: _, [] => none
  | p :: ps, c :: cs => if p = c then stripPrefixL ps cs else none

/-- Rust `str::strip_prefix` on strings. -/
def rStripPrefix (pre s : String) : Option String :=
  (stripPrefixL pre.data s.data).map (fun l => String.mk l)

/-- Rust `str::strip_suffix` on strings, via the reversed lists. -/
def rStripSuffix (suf s : String) : Option String :=
  (stripPrefixL suf.data.reverse s.data.reverse).map (fun l => String.mk l.reverse)

/-- Rust `resp`, the router: `/` redirects to the project page; a
`/avatar/` prefix dispatches on the `.png` / `.json` suffix (checked in
that order); everything else is a 404. -/
def resp (req : HttpRequest) (w : World) : Option HttpResponse × Trace :=
  let x := req.path
  if x = "/" then
    (some { status := 302,
            headers := [("Location", "https://git.nea.moe/nea/discordavatarproxy")],
            body := Body.empty },
     { userLookupCalled := false, avatarFetchCalled := false })
  else
    match rStripPrefix "/avatar/" x with
    | none => (some (make_err 404 "Not found"),
               { userLookupCalled := false, avatarFetchCalled := false })
    | some request =>
      match rStripSuffix ".png" request with
      | some userid => respond_with_image userid w
      | none =>
        match rStripSuffix ".json" request with
        | some userid =>
          match respond_with_json userid w.upstream with
          | (r, called) => (r, { userLookupCalled := called, avatarFetchCalled := false })
        | none => (some (make_err 404 "Invalid format"),
                   { userLookupCalled := false, avatarFetchCalled := false })

/-- Rust `wrap_error`: any `anyhow::Err` escaping `resp` becomes the
opaque 500 response. -/
def wrap_error (req : HttpRequest) (w : World) : HttpResponse × Trace :=
  match resp req w with
  | (none, t) => ({ status := 500, headers := [], body := Body.text "500 Internal Error" }, t)
  | (some r, t) => (r, t)

/-- The route classification of the spec, section 4.1, in spec terms. -/
inductive Route where
  | root : Route
  | avatarImage : String → Route
  | avatarJson : String → Route
  | notFound : Route
  | invalidFormat : Route
  deriving Repr, DecidableEq

/-- Pure route classification, mirroring the branch structure of
`resp`. -/
def route (path : String) : Route :=
  if path = "/" then Route.root
  else
    match rStripPrefix "/avatar/" path with
    | none => Route.notFound
    | some request =>
      match rStripSuffix ".png" request with
      | some userid => Route.avatarImage userid
      | none =>
        match rStripSuffix ".json" request with
        | some userid => Route.avatarJson userid
        | none => Route.invalidFormat

/-- The image-request path for a user id. -/
def pngPath (id : String) : String := "/avatar/" ++ id ++ ".png"

/-- The JSON-request path for a user id. -/
def jsonPath (id : String) : String := "/avatar/" ++ id ++ ".json"

/-! Helper lemmas about string prefix and suffix stripping. -/

theorem data_append (s t : String) : (s ++ t).data = s.data ++ t.data := rfl

theorem sAppend_assoc (a b c : String) : (a ++ b) ++ c = a ++ (b ++ c) := by
  apply String.ext
  simp [data_append, List.append_assoc]

theorem stripPrefixL_append (p : List Char) : ∀ s, stripPrefixL p (p ++ s) = some s := by
  induction p with
  | nil => intro s; rfl
  | cons c ps ih => intro s; simp [stripPrefixL, ih]

theorem stripPrefixL_eq_some (p : List Char) :
    ∀ {s t : List Char}, stripPrefixL p s = some t → s = p ++ t := by
  induction p with
  | nil =>
    intro s t h
    simpa [stripPrefixL] using h
  | cons c ps ih =>
    intro s t h
    cases s with
    | nil => simp [stripPrefixL] at h
    | cons d ds =>
      by_cases hc : c = d
      · subst hc
        simp only [stripPrefixL, if_pos rfl] at h
        simpa using ih h
      · simp [stripPrefixL, hc] at h

theorem rStripPrefix_append (pre s : String) : rStripPrefix pre (pre ++ s) = some s := by
  unfold rStripPrefix
  rw [data_append, stripPrefixL_append]
  rfl

theorem rStripSuffix_append (suf s : String) : rStripSuffix suf (s ++ suf) = some s := by
  unfold rStripSuffix
  rw [data_append, List.reverse_append, stripPrefixL_append]
  show some (String.mk s.data.reverse.reverse) = some s
  rw [List.reverse_reverse]

theorem rStripSuffix_eq_some {suf s t : String} (h : rStripSuffix suf s = some t) :
    s = t ++ suf := by
  unfold rStripSuffix at h
  cases hs : stripPrefixL suf.data.reverse s.data.reverse with
  | none => rw [hs] at h; simp at h
  | some l =>
    rw [hs] at h
    have h4 : String.mk l.reverse = t := Option.some.inj h
    have h2 := stripPrefixL_eq_some _ hs
    apply String.ext
    rw [data_append]
    have h3 : s.data = l.reverse ++ suf.data := by
      have := congrArg List.reverse h2
      simpa [List.reverse_append] using this
    rw [h3, ← h4]

theorem pngPath_ne_root (id : String) : pngPath id ≠ "/" := by
  intro h
  have hd := congrArg String.data h
  rw [pngPath, data_append, data_append] at hd
  have h8 : ("/avatar/" : String).data = ['/', 'a', 'v', 'a', 't', 'a', 'r', '/'] := rfl
  rw [h8] at hd
  simp at hd

theorem jsonPath_ne_root (id : String) : jsonPath id ≠ "/" := by
  intro h
  have hd := congrArg String.data h
  rw [jsonPath, data_append, data_append] at hd
  have h8 : ("/avatar/" : String).data = ['/', 'a', 'v', 'a', 't', 'a', 'r', '/'] := rfl
  rw [h8] at hd
  simp at hd

theorem stripSuffix_png_of_json (id : String) : rStripSuffix ".png" (id ++ ".json") = none := by
  unfold rStripSuffix
  rw [data_append]
  have h1 : (".png" : String).data.reverse = ['g', 'n', 'p', '.'] := by decide
  have h2 : (id.data ++ (".json" : String).data).reverse =
      'n' :: 'o' :: 's' :: 'j' :: '.' :: id.data.reverse := by
    have h3 : (".json" : String).data = ['.', 'j', 's', 'o', 'n'] := rfl
    rw [h3, List.reverse_append]
    rfl
  rw [h1, h2]
  simp [stripPrefixL]

theorem route_pngPath (id : String) : route (pngPath id) = Route.avatarImage id := by
  have h1 : rStripPrefix "/avatar/" (pngPath id) = some (id ++ ".png") := by
    rw [pngPath, sAppend_assoc, rStripPrefix_append]
  simp [route, pngPath_ne_root id, h1, rStripSuffix_append]

theorem route_jsonPath (id : String) : route (jsonPath id) = Route.avatarJson id := by
  have h1 : rStripPrefix "/avatar/" (jsonPath id) = some (id ++ ".json") := by
    rw [jsonPath, sAppend_assoc, rStripPrefix_append]
  simp [route, jsonPath_ne_root id, h1, rStripSuffix_append, stripSuffix_png_of_json]

theorem resp_pngPath (m id : String) (w : World) :
    resp { method := m, path := pngPath id } w = respond_with_image id w := by
  have h1 : rStripPrefix "/avatar/" (pngPath id) = some (id ++ ".png") := by
    rw [pngPath, sAppend_assoc, rStripPrefix_append]
  simp [resp, pngPath_ne_root id, h1, rStripSuffix_append]

theorem resp_jsonPath (m id : String) (w : World) :
    resp { method := m, path := jsonPath id } w =
      ((respond_with_json id w.upstream).1,
       { userLookupCalled := (respond_with_json id w.upstream).2, avatarFetchCalled := false }) := by
  have h1 : rStripPrefix "/avatar/" (jsonPath id) = some (id ++ ".json") := by
    rw [jsonPath, sAppend_assoc, rStripPrefix_append]
  simp [resp, jsonPath_ne_root id, h1, rStripSuffix_append, stripSuffix_png_of_json]

/-- C1: on a record with an avatar hash, `get_avatar_url` returns the
custom-avatar URL embedding that id and hash exactly; on a record with
no avatar hash whose discriminator parses as an unsigned integer d, it
returns the default-avatar URL with index d mod 5, always in
the range 0..4. -/
theorem c1_resolve_avatar_url (u : DiscordUserFormat) :
    (∀ hash, u.avatar = some hash →
      get_avatar_url u =
        some ("https://cdn.discordapp.com/avatars/" ++ u.id ++ "/" ++ hash ++ ".png")) ∧
    (∀ d, u.avatar = none → parseU16 u.discriminator = some d →
      get_avatar_url u =
        some ("https://cdn.discordapp.com/embed/avatars/" ++ toString (d % 5) ++ ".png") ∧
      d % 5 < 5) := by
  constructor
  · intro hash h
    simp [get_avatar_url, h]
  · intro d h hd
    refine ⟨?_, Nat.mod_lt _ (by decide)⟩
    simp [get_avatar_url, h, default_avatar_url, hd]

def c1UserHash : DiscordUserFormat :=
  { accent_color := none, username := "nea", discriminator := "0007", id := "123",
    public_flags := 0, bot := false, banner := none, avatar := some "abcd" }

def c1UserNoHash : DiscordUserFormat :=
  { accent_color := none, username := "nea", discriminator := "0007", id := "123",
    public_flags := 0, bot := false, banner := none, avatar := none }

/-- C1 witness at id 123, hash "abcd", and at discriminator 0007. -/
theorem c1_witness :
    get_avatar_url c1UserHash =
      some ("https://cdn.discordapp.com/avatars/" ++ "123" ++ "/" ++ "abcd" ++ ".png") ∧
    (get_avatar_url c1UserNoHash =
      some ("https://cdn.discordapp.com/embed/avatars/" ++ toString (7 % 5) ++ ".png") ∧
     7 % 5 < 5) :=
  ⟨(c1_resolve_avatar_url c1UserHash).1 "abcd" rfl,
   (c1_resolve_avatar_url c1UserNoHash).2 7 rfl (by decide)⟩

/-- C2: every path is classified into exactly one route: the root path
redirects (302) to the fixed project URL; a `/avatar/` path ending in
`.png` or `.json` dispatches to the image or JSON handler with the id
equal to the rest of the path minus the suffix; a `/avatar/` path with
an unrecognized suffix yields 404 "Invalid format"; any other path
yields 404 "Not found".  Routing itself never produces a 500: every
non-dispatch case is an explicit 302 or 404. -/
theorem c2_router (m : String) (w : World) (path : String) :
    (route path = Route.root ∧ path = "/" ∧
      (wrap_error { method := m, path := path } w).1 =
        { status := 302,
          headers := [("Location", "https://git.nea.moe/nea/discordavatarproxy")],
          body := Body.empty }) ∨
    (∃ rest id, rStripPrefix "/avatar/" path = some rest ∧ rest = id ++ ".png" ∧
      route path = Route.avatarImage id ∧
      resp { method := m, path := path } w = respond_with_image id w) ∨
    (∃ rest id, rStripPrefix "/avatar/" path = some rest ∧ rest = id ++ ".json" ∧
      route path = Route.avatarJson id ∧
      (resp { method := m, path := path } w).1 = (respond_with_json id w.upstream).1) ∨
    (route path = Route.notFound ∧
      (wrap_error { method := m, path := path } w).1 = make_err 404 "Not found") ∨
    (route path = Route.invalidFormat ∧
      (wrap_error { method := m, path := path } w).1 = make_err 404 "Invalid format") := by
  by_cases h : path = "/"
  · left
    subst h
    exact ⟨rfl, rfl, rfl⟩
  · cases hp : rStripPrefix "/avatar/" path with
    | none =>
      right; right; right; left
      exact ⟨by simp [route, h, hp], by simp [wrap_error, resp, h, hp]⟩
    | some rest =>
      cases hpng : rStripSuffix ".png" rest with
      | some id =>
        right; left
        exact ⟨rest, id, rfl, rStripSuffix_eq_some hpng,
          by simp [route, h, hp, hpng], by simp [resp, h, hp, hpng]⟩
      | none =>
        cases hjson : rStripSuffix ".json" rest with
        | some id =>
          right; right; left
          exact ⟨rest, id, rfl, rStripSuffix_eq_some hjson,
            by simp [route, h, hp, hpng, hjson], by simp [resp, h, hp, hpng, hjson]⟩
        | none =>
          right; right; right; right
          exact ⟨by simp [route, h, hp, hpng, hjson],
            by simp [wrap_error, resp, h, hp, hpng, hjson]⟩

/-- C3 (amended): for both request formats, when the id parses and the
user lookup fails — a transport failure or a body that does not
deserialize as a user record — the public response is 502 "Discord
failed to respond".  (The upstream HTTP status itself is never
inspected: a non-success status yields this 502 only through its body
failing to deserialize; see the counterexample.) -/
theorem c3_upstream_failure (m id : String) (n : Nat) (w : World)
    (hid : parseU64 id = some n) (hup : get_user_data w.upstream = none) :
    (wrap_error { method := m, path := pngPath id } w).1 =
      make_err 502 "Discord failed to respond" ∧
    (wrap_error { method := m, path := jsonPath id } w).1 =
      make_err 502 "Discord failed to respond" := by
  constructor
  · simp [wrap_error, resp_pngPath, respond_with_image, get_discord_data_for, hid, hup]
  · simp [wrap_error, resp_jsonPath, respond_with_json, get_discord_data_for, hid, hup]

/-- C3 witness: id 5, transport failure, both formats give the 502. -/
theorem c3_witness :
    (wrap_error { method := "GET", path := pngPath "5" }
        { upstream := Upstream.netFailure, avatarFetch := AvatarFetch.getFailure }).1 =
      make_err 502 "Discord failed to respond" ∧
    (wrap_error { method := "GET", path := jsonPath "5" }
        { upstream := Upstream.netFailure, avatarFetch := AvatarFetch.getFailure }).1 =
      make_err 502 "Discord failed to respond" :=
  c3_upstream_failure "GET" "5" 5
    { upstream := Upstream.netFailure, avatarFetch := AvatarFetch.getFailure }
    (by decide) rfl

def c3User : DiscordUserFormat :=
  { accent_color := none, username := "nea", discriminator := "0007", id := "5",
    public_flags := 0, bot := false, banner := none, avatar := some "abcd" }

/-- C3 counterexample: an upstream response with non-success status 500
whose body nevertheless deserializes as a user record is accepted, and
the public response is 200, not the claimed 502 — the code never checks
the upstream status. -/
theorem c3_counterexample :
    get_user_data (Upstream.response 500 (some c3User)) = some c3User ∧
    (wrap_error { method := "GET", path := "/avatar/5.json" }
        { upstream := Upstream.response 500 (some c3User),
          avatarFetch := AvatarFetch.getFailure }).1.status = 200 :=
  ⟨rfl, by decide⟩

/-- C4 (amended): when the record has no avatar hash and the
discriminator does not parse as a u16, the image format maps the
failure to 502 "Discord failed to respond", but the JSON format
propagates it as an internal error and responds 500 "Internal Error". -/
theorem c4_discriminator_unparseable (m id : String) (n : Nat) (w : World)
    (u : DiscordUserFormat)
    (hid : parseU64 id = some n) (hup : get_user_data w.upstream = some u)
    (hav : u.avatar = none) (hd : parseU16 u.discriminator = none) :
    (wrap_error { method := m, path := pngPath id } w).1 =
      make_err 502 "Discord failed to respond" ∧
    (wrap_error { method := m, path := jsonPath id } w).1 =
      { status := 500, headers := [], body := Body.text "500 Internal Error" } := by
  have hurl : get_avatar_url u = none := by
    simp [get_avatar_url, hav, default_avatar_url, hd]
  constructor
  · simp [wrap_error, resp_pngPath, respond_with_image, get_discord_data_for, hid, hup, hurl]
  · simp [wrap_error, resp_jsonPath, respond_with_json, get_discord_data_for, hid, hup, hurl]

def c4User : DiscordUserFormat :=
  { accent_color := none, username := "nea", discriminator := "abcd", id := "5",
    public_flags := 0, bot := false, banner := none, avatar := none }

/-- C4 witness: id 5, discriminator "abcd", no avatar hash. -/
theorem c4_witness :
    (wrap_error { method := "GET", path := pngPath "5" }
        { upstream := Upstream.response 200 (some c4User),
          avatarFetch := AvatarFetch.getFailure }).1 =
      make_err 502 "Discord failed to respond" ∧
    (wrap_error { method := "GET", path := jsonPath "5" }
        { upstream := Upstream.response 200 (some c4User),
          avatarFetch := AvatarFetch.getFailure }).1 =
      { status := 500, headers := [], body := Body.text "500 Internal Error" } :=
  c4_discriminator_unparseable "GET" "5" 5
    { upstream := Upstream.response 200 (some c4User), avatarFetch := AvatarFetch.getFailure }
    c4User (by decide) rfl rfl (by decide)

/-- C4 counterexample: on the JSON path the discriminator-parse failure
becomes the 500 "Internal Error" response, not the claimed 502. -/
theorem c4_counterexample :
    (wrap_error { method := "GET", path := "/avatar/5.json" }
        { upstream := Upstream.response 200 (some c4User),
          avatarFetch := AvatarFetch.getFailure }).1.status = 500 ∧
    (wrap_error { method := "GET", path := "/avatar/5.json" }
        { upstream := Upstream.response 200 (some c4User),
          avatarFetch := AvatarFetch.getFailure }).1.body =
      Body.text "500 Internal Error" := by
  constructor <;> rfl

/-- C5 (amended): when the extracted id does not parse as an unsigned
64-bit integer, both formats respond 404 "Not found" and neither
outbound call is made.  (The code parses the id with the u64 parser, so
"0" — not a positive integer — is accepted and does trigger the
outbound lookup; see the counterexample.) -/
theorem c5_unparseable_id (m id : String) (w : World) (h : parseU64 id = none) :
    wrap_error { method := m, path := pngPath id } w =
      (make_err 404 "Not found",
       { userLookupCalled := false, avatarFetchCalled := false }) ∧
    wrap_error { method := m, path := jsonPath id } w =
      (make_err 404 "Not found",
       { userLookupCalled := false, avatarFetchCalled := false }) := by
  constructor
  · simp [wrap_error, resp_pngPath, respond_with_image, get_discord_data_for, h]
  · simp [wrap_error, resp_jsonPath, respond_with_json, get_discord_data_for, h]

/-- C5 witness: id "notanumber", both formats, any world. -/
theorem c5_witness :
    wrap_error { method := "GET", path := pngPath "notanumber" }
        { upstream := Upstream.netFailure, avatarFetch := AvatarFetch.getFailure } =
      (make_err 404 "Not found",
       { userLookupCalled := false, avatarFetchCalled := false }) ∧
    wrap_error { method := "GET", path := jsonPath "notanumber" }
        { upstream := Upstream.netFailure, avatarFetch := AvatarFetch.getFailure } =
      (make_err 404 "Not found",
       { userLookupCalled := false, avatarFetchCalled := false }) :=
  c5_unparseable_id "GET" "notanumber"
    { upstream := Upstream.netFailure, avatarFetch := AvatarFetch.getFailure } (by decide)

/-- The wording of the claim: the id string parses to some positive
integer. -/
def parseableAsPositiveInteger (s : String) : Prop :=
  ∃ n, parseU64 s = some n ∧ 0 < n

def c5User : DiscordUserFormat :=
  { accent_color := none, username := "nea", discriminator := "0001", id := "0",
    public_flags := 0, bot := false, banner := none, avatar := some "h" }

/-- C5 counterexample: the id "0" is not parseable as a positive
integer, yet the code parses it as a u64, performs the outbound lookup,
and (here) responds 200 — not the claimed 404 with no outbound call. -/
theorem c5_counterexample :
    ¬ parseableAsPositiveInteger "0" ∧
    (wrap_error { method := "GET", path := "/avatar/0.json" }
        { upstream := Upstream.response 200 (some c5User),
          avatarFetch := AvatarFetch.getFailure }).2.userLookupCalled = true ∧
    (wrap_error { method := "GET", path := "/avatar/0.json" }
        { upstream := Upstream.response 200 (some c5User),
          avatarFetch := AvatarFetch.getFailure }).1.status = 200 := by
  refine ⟨?_, by decide, by decide⟩
  rintro ⟨n, hn, hpos⟩
  have h0 : parseU64 "0" = some 0 := by decide
  rw [h0] at hn
  simp at hn
  omega

/-- C6: a successful JSON request responds 200 with content type
application/json and a body that is a JSON object with exactly the four
fields username, discriminator, avatar and banner, in that order;
avatar is always a present string (the resolver output), and banner is
the banner URL when the record has a banner hash and null otherwise. -/
theorem c6_json_success (m id : String) (n : Nat) (w : World)
    (u : DiscordUserFormat) (url : String)
    (hid : parseU64 id = some n) (hup : get_user_data w.upstream = some u)
    (hurl : get_avatar_url u = some url) :
    (wrap_error { method := m, path := jsonPath id } w).1 =
      { status := 200,
        headers := [("content-type", "application/json")],
        body := Body.json (Json.obj
          [("username", Json.str u.username),
           ("discriminator", Json.str u.discriminator),
           ("avatar", Json.str url),
           ("banner", match u.banner with
             | none => Json.null
             | some hash =>
               Json.str ("https://cdn.discordapp.com/banners/" ++ u.id ++ "/" ++ hash ++ ".png"))]) } := by
  cases hb : u.banner with
  | none =>
    simp [wrap_error, resp_jsonPath, respond_with_json, get_discord_data_for,
      hid, hup, hurl, responseJson, hb]
  | some hash =>
    simp [wrap_error, resp_jsonPath, respond_with_json, get_discord_data_for,
      hid, hup, hurl, responseJson, hb]

def c6User : DiscordUserFormat :=
  { accent_color := none, username := "nea", discriminator := "0007", id := "7",
    public_flags := 0, bot := false, banner := some "bb", avatar := some "aa" }

/-- C6 witness: id 7, avatar hash "aa", banner hash "bb". -/
theorem c6_witness :
    (wrap_error { method := "GET", path := jsonPath "7" }
        { upstream := Upstream.response 200 (some c6User),
          avatarFetch := AvatarFetch.getFailure }).1 =
      { status := 200,
        headers := [("content-type", "application/json")],
        body := Body.json (Json.obj
          [("username", Json.str c6User.username),
           ("discriminator", Json.str c6User.discriminator),
           ("avatar", Json.str "https://cdn.discordapp.com/avatars/7/aa.png"),
           ("banner", match c6User.banner with
             | none => Json.null
             | some hash =>
               Json.str ("https://cdn.discordapp.com/banners/" ++ c6User.id ++ "/" ++ hash ++ ".png"))]) } :=
  c6_json_success "GET" "7" 7
    { upstream := Upstream.response 200 (some c6User), avatarFetch := AvatarFetch.getFailure }
    c6User "https://cdn.discordapp.com/avatars/7/aa.png" (by decide) rfl (by decide)

/-- C7 (amended): a successful image request relays the upstream body
byte-for-byte, but its content type is hardcoded to image/png — the
upstream content type is never read (see the counterexample). -/
theorem c7_image_passthrough (m id : String) (n : Nat) (w : World)
    (u : DiscordUserFormat) (url : String) (s : Nat) (ct : String) (b : List Nat)
    (hid : parseU64 id = some n) (hup : get_user_data w.upstream = some u)
    (hurl : get_avatar_url u = some url)
    (hf : w.avatarFetch = AvatarFetch.getSuccess s ct b) :
    (wrap_error { method := m, path := pngPath id } w).1 =
      { status := 200,
        headers := [("content-type", "image/png")],
        body := Body.bytes b } := by
  simp [wrap_error, resp_pngPath, respond_with_image, get_discord_data_for,
    hid, hup, hurl, hf]

def c7User : DiscordUserFormat :=
  { accent_color := none, username := "nea", discriminator := "0007", id := "5",
    public_flags := 0, bot := false, banner := none, avatar := some "aa" }

/-- C7 witness: the CDN body bytes 1,2,3 come back verbatim. -/
theorem c7_witness :
    (wrap_error { method := "GET", path := pngPath "5" }
        { upstream := Upstream.response 200 (some c7User),
          avatarFetch := AvatarFetch.getSuccess 200 "image/png" [1, 2, 3] }).1 =
      { status := 200,
        headers := [("content-type", "image/png")],
        body := Body.bytes [1, 2, 3] } :=
  c7_image_passthrough "GET" "5" 5
    { upstream := Upstream.response 200 (some c7User),
      avatarFetch := AvatarFetch.getSuccess 200 "image/png" [1, 2, 3] }
    c7User "https://cdn.discordapp.com/avatars/5/aa.png" 200 "image/png" [1, 2, 3]
    (by decide) rfl (by decide) rfl

/-- C7 counterexample: the upstream image response carries content type
image/jpeg, yet the public response's content type is image/png — the
upstream content type is not preserved. -/
theorem c7_counterexample :
    (wrap_error { method := "GET", path := "/avatar/5.png" }
        { upstream := Upstream.response 200 (some c7User),
          avatarFetch := AvatarFetch.getSuccess 200 "image/jpeg" [1, 2, 3] }).1.headers =
      [("content-type", "image/png")] ∧
    ("image/png" : String) ≠ "image/jpeg" :=
  ⟨by decide, by decide⟩

/-- C8: when the user lookup and avatar resolution succeed but the
avatar GET fails at the transport level, the public response is the 502
naming the exact failed URL. -/
theorem c8_avatar_fetch_failure (m id : String) (n : Nat) (w : World)
    (u : DiscordUserFormat) (url : String)
    (hid : parseU64 id = some n) (hup : get_user_data w.upstream = some u)
    (hurl : get_avatar_url u = some url)
    (hf : w.avatarFetch = AvatarFetch.getFailure) :
    (wrap_error { method := m, path := pngPath id } w).1 =
      make_err 502 ("Discord failed to supply avatar for url: " ++ url) := by
  simp [wrap_error, resp_pngPath, respond_with_image, get_discord_data_for,
    hid, hup, hurl, hf]

def c8User : DiscordUserFormat :=
  { accent_color := none, username := "nea", discriminator := "0007", id := "5",
    public_flags := 0, bot := false, banner := none, avatar := some "aa" }

/-- C8 witness: the 502 names the resolved avatar URL for id 5, hash
"aa". -/
theorem c8_witness :
    (wrap_error { method := "GET", path := pngPath "5" }
        { upstream := Upstream.response 200 (some c8User),
          avatarFetch := AvatarFetch.getFailure }).1 =
      make_err 502
        ("Discord failed to supply avatar for url: " ++
          "https://cdn.discordapp.com/avatars/5/aa.png") :=
  c8_avatar_fetch_failure "GET" "5" 5
    { upstream := Upstream.response 200 (some c8User), avatarFetch := AvatarFetch.getFailure }
    c8User "https://cdn.discordapp.com/avatars/5/aa.png" (by decide) rfl (by decide) rfl

/-- C9: once the avatar GET completes at the transport level the public
response is a 200 relaying the CDN body, whatever HTTP status the CDN
returned; only a transport-level failure of that GET produces the 502
avatar-fetch error. -/
theorem c9_cdn_status_ignored (m id : String) (n : Nat) (w : World)
    (u : DiscordUserFormat) (url : String)
    (hid : parseU64 id = some n) (hup : get_user_data w.upstream = some u)
    (hurl : get_avatar_url u = some url) :
    (∀ s ct b, w.avatarFetch = AvatarFetch.getSuccess s ct b →
      (wrap_error { method := m, path := pngPath id } w).1.status = 200 ∧
      (wrap_error { method := m, path := pngPath id } w).1.body = Body.bytes b) ∧
    (w.avatarFetch = AvatarFetch.getFailure →
      (wrap_error { method := m, path := pngPath id } w).1 =
        make_err 502 ("Discord failed to supply avatar for url: " ++ url)) := by
  constructor
  · intro s ct b hf
    constructor <;>
      simp [wrap_error, resp_pngPath, respond_with_image, get_discord_data_for,
        hid, hup, hurl, hf]
  · intro hf
    simp [wrap_error, resp_pngPath, respond_with_image, get_discord_data_for,
      hid, hup, hurl, hf]

def c9User : DiscordUserFormat :=
  { accent_color := none, username := "nea", discriminator := "0007", id := "5",
    public_flags := 0, bot := false, banner := none, avatar := some "aa" }

/-- C9 witness: a CDN 404 error page is relayed to the caller as a 200
with the CDN body. -/
theorem c9_witness :
    (wrap_error { method := "GET", path := pngPath "5" }
        { upstream := Upstream.response 200 (some c9User),
          avatarFetch := AvatarFetch.getSuccess 404 "text/html" [60, 104, 62] }).1.status = 200 ∧
    (wrap_error { method := "GET", path := pngPath "5" }
        { upstream := Upstream.response 200 (some c9User),
          avatarFetch := AvatarFetch.getSuccess 404 "text/html" [60, 104, 62] }).1.body =
      Body.bytes [60, 104, 62] :=
  (c9_cdn_status_ignored "GET" "5" 5
    { upstream := Upstream.response 200 (some c9User),
      avatarFetch := AvatarFetch.getSuccess 404 "text/html" [60, 104, 62] }
    c9User "https://cdn.discordapp.com/avatars/5/aa.png"
    (by decide) rfl (by decide)).1 404 "text/html" [60, 104, 62] rfl

/-- C10: the handler never inspects the HTTP method — two requests with
the same path and any two methods get identical responses and traces. -/
theorem c10_method_ignored (m₁ m₂ path : String) (w : World) :
    wrap_error { method := m₁, path := path } w =
      wrap_error { method := m₂, path := path } w := rfl

end DiscordAvatarProxy
